import Mathlib

/-!
Verification of the hud-browser scenario layer.

Shallow embedding of the scenario generators in `src/scenarios/game_2048.py`
and `src/scenarios/todo.py`, and of the connection-discovery loop in
`src/tools/browser.py`.

Modelling conventions:
  * A JSON field read with a defaulted lookup (`state.get(key, default)`) is an
    `Option` field, read with `Option.getD`.
  * An HTTP call whose failure is caught inside the scenario is an `Option`
    argument (`none` = the call raised or the body could not be parsed).
  * An HTTP call that is NOT wrapped in try/except (the launch POST, the
    body parse after the status check, and the seeding/init POSTs) makes the
    whole run fail: the run functions return `Except Unit (List (Yield α))`,
    where `Except.error ()` means an exception escaped the generator.
  * Each scenario generator is a function from its parameters and the backend
    responses it consumes to the list of values it yields, in order; a yielded
    value is either the task prompt (a string) or the terminal reward.
  * Python floats are modelled as `ℝ` where `math.log` is involved
    (the 2048 reach-tile reward) and as `ℚ` elsewhere.
-/

namespace HudBrowser

/-- Parsed body of `GET /api/game/state`; every field the scenarios read is
accessed with a defaulted lookup (`.get("highest_tile", 0)`, `.get("score", 0)`,
`.get("won", False)`), hence `Option`. -/
structure GameState where
  highest_tile : Option ℕ
  score : Option ℕ
  won : Option Bool

/-- Parsed body of `GET /api/eval/stats`; fields read with
`.get("total_items", 0)` and `.get("completed_items", 0)`. -/
structure TodoStats where
  total_items : Option ℕ
  completed_items : Option ℕ

/-- One element of the list returned by `GET /api/eval/todos`; the scenario
reads `todo.get("title")`, which is `None` when the key is missing. -/
structure TodoItem where
  title : Option String

/-- Result of `POST /apps/launch` when the request itself did not raise:
the HTTP status code, and the parsed body (`none` when `response.json()` or
the `backend_port` lookup raises; `some b` carries the optional
`backend_port` field). The scenarios check `status_code != 200` before
touching the body. -/
structure LaunchResponse where
  status_code : ℕ
  body : Option (Option ℕ)

/-- A value yielded by a scenario generator: either the task prompt or the
terminal reward. -/
inductive Yield (α : Type) where
  | prompt (s : String)
  | reward (r : α)

/-! ### Reward functions (pure state-to-reward mappings from the source) -/

/-- Reward of `2048-reach-tile` (src/scenarios/game_2048.py):
`if score == 0: 0.0 elif target > 1 and highest_tile > 1:
min(1.0, math.log(highest_tile) / math.log(target)) else: 0.0`. -/
noncomputable def reach_tile_reward (target highest_tile score : ℕ) : ℝ :=
  if score = 0 then 0
  else if 1 < target ∧ 1 < highest_tile then
    min 1 (Real.log highest_tile / Real.log target)
  else 0

/-- Reward of `2048-near-win`:
`won = state.get("won", False) or state.get("highest_tile", 0) >= target;
1.0 if won else 0.0`. -/
def near_win_reward (target : ℕ) (won : Bool) (highest_tile : ℕ) : ℚ :=
  if won = true ∨ target ≤ highest_tile then 1 else 0

/-- Reward of `2048-score`:
`min(1.0, score / target_score) if target_score > 0 else 0.0`. -/
def reach_score_reward (target_score : ℤ) (score : ℕ) : ℚ :=
  if 0 < target_score then min 1 ((score : ℚ) / (target_score : ℚ)) else 0

/-- Reward of `todo-complete` (src/scenarios/todo.py):
`1.0 if completed >= expected_count; elif expected_count > 0:
completed / expected_count; else 0.0`. -/
def complete_todos_reward (expected_count : ℤ) (completed : ℕ) : ℚ :=
  if expected_count ≤ (completed : ℤ) then 1
  else if 0 < expected_count then (completed : ℚ) / (expected_count : ℚ)
  else 0

/-- Reward of `todo-create`:
`1.0 if any(todo.get("title") == title for todo in todos) else 0.0`. -/
def create_todo_reward (title : String) (todos : List TodoItem) : ℚ :=
  if todos.any (fun todo => todo.title = some title) then 1 else 0

/-- Reward of `todo-completion-rate`:
`actual_rate = completed / total if total > 0 else 0.0;
min(1.0, actual_rate / target_rate) if target_rate > 0 else 1.0`. -/
def completion_rate_reward (target_rate : ℚ) (total completed : ℕ) : ℚ :=
  let actual_rate : ℚ := if 0 < total then (completed : ℚ) / (total : ℚ) else 0
  if 0 < target_rate then min 1 (actual_rate / target_rate) else 1

/-! ### Prompt strings -/

/-- Prompt of `2048-reach-tile`. -/
def reach_tile_prompt (target : ℕ) : String :=
  "Play the 2048 game and try to reach the " ++ toString target ++
  " tile.\n\nUse the computer tool to:\n1. Take a screenshot to see the current board\n" ++
  "2. Press arrow keys (up, down, left, right) to make moves\n" ++
  "3. Continue until you reach " ++ toString target ++
  " or the game ends\n\nStart by taking a screenshot."

/-- Prompt of `2048-near-win`. -/
def near_win_prompt (target : ℕ) : String :=
  "You\x27re one move away from winning! Reach the " ++ toString target ++
  " tile.\n\nThe board is set up with two " ++ toString (target / 2) ++
  " tiles ready to merge.\nUse arrow keys to make the winning move.\n\n" ++
  "Take a screenshot first to see the board."

/-- Prompt of `2048-score`. -/
def reach_score_prompt (target_score : ℤ) : String :=
  "Play 2048 and try to reach a score of " ++ toString target_score ++
  ".\n\nUse the computer tool to take screenshots and make moves with arrow keys.\n" ++
  "Focus on efficient tile merging to maximize your score."

/-- Prompt of `todo-complete`. -/
def complete_todos_prompt (expected_count : ℤ) : String :=
  "Complete " ++ toString expected_count ++
  " todo items in the list.\n\nUse the browser to:\n" ++
  "1. Take a screenshot to see the todo list\n" ++
  "2. Click on todo items to mark them as complete\n" ++
  "3. Continue until " ++ toString expected_count ++
  " items are marked done\n\nStart by taking a screenshot."

/-- Prompt of `todo-create`. -/
def create_todo_prompt (title : String) : String :=
  "Create a new todo item with the title: \"" ++ title ++
  "\"\n\nUse the browser to:\n1. Take a screenshot to see the todo app\n" ++
  "2. Find the input field for new todos\n3. Type the title and submit\n\n" ++
  "The todo title must be exactly: " ++ title

/-- Prompt of `todo-completion-rate`; `pct = int(target_rate * 100)` (the
rates used are non-negative, where truncation and floor agree). -/
def completion_rate_prompt (target_rate : ℚ) : String :=
  let pct : ℤ := Rat.floor (target_rate * 100)
  "Complete at least " ++ toString pct ++
  "% of the todo items in the list.\n\nUse the browser to view and complete todo items.\n" ++
  "You need to mark enough items as done to reach " ++ toString pct ++ "% completion."

/-- Near-win board construction (only posted to `/api/eval/set_board`; its
contents never influence the values the generator yields). -/
def near_win_board (target : ℕ) : List (List ℕ) :=
  if target = 2048 then
    [[1024, 1024, 256, 128], [512, 256, 64, 32], [128, 64, 16, 8], [32, 16, 4, 2]]
  else if target = 1024 then
    [[512, 512, 128, 64], [256, 128, 32, 16], [64, 32, 8, 4], [16, 8, 2, 0]]
  else
    let half := target / 2
    let quarter := target / 4
    [[half, half, quarter, quarter / 2],
     [quarter, quarter / 2, 16, 8],
     [16, 8, 4, 2],
     [4, 2, 0, 0]]

/-! ### Scenario runs

Each run function maps the scenario parameters and the backend responses to
the sequence of yielded values. Arguments, in generator order:
  * `launch` — result of `POST /apps/launch` (`none` = the request raised,
    e.g. timeout or connection failure; not caught by the scenario);
  * one `Option Unit` per un-guarded setup POST (`/api/game/new`,
    `/api/eval/set_board`, `/api/eval/seed`, `/api/eval/reset`);
  * `fetch` — outcome of the whole guarded evaluation block (`none` = any
    exception in the try block: network error, bad status, malformed body).
-/

/-- Run of the `2048-reach-tile` generator. -/
noncomputable def reach_tile_run (target board_size : ℕ) (launch : Option LaunchResponse)
    (new_game : Option Unit) (fetch : Option GameState) :
    Except Unit (List (Yield ℝ)) :=
  match launch with
  | none => Except.error ()
  | some response =>
    if response.status_code ≠ 200 then Except.ok [Yield.reward 0]
    else
      match response.body with
      | none => Except.error ()
      | some _backend_port =>
        match new_game with
        | none => Except.error ()
        | some _ =>
          match fetch with
          | none => Except.ok [Yield.prompt (reach_tile_prompt target), Yield.reward 0]
          | some game_state =>
            Except.ok [Yield.prompt (reach_tile_prompt target),
              Yield.reward (reach_tile_reward target (game_state.highest_tile.getD 0)
                (game_state.score.getD 0))]

/-- Run of the `2048-near-win` generator. -/
def near_win_run (target : ℕ) (launch : Option LaunchResponse)
    (set_board : Option Unit) (fetch : Option GameState) :
    Except Unit (List (Yield ℚ)) :=
  match launch with
  | none => Except.error ()
  | some response =>
    if response.status_code ≠ 200 then Except.ok [Yield.reward 0]
    else
      match response.body with
      | none => Except.error ()
      | some _backend_port =>
        match set_board with
        | none => Except.error ()
        | some _ =>
          match fetch with
          | none => Except.ok [Yield.prompt (near_win_prompt target), Yield.reward 0]
          | some game_state =>
            Except.ok [Yield.prompt (near_win_prompt target),
              Yield.reward (near_win_reward target (game_state.won.getD false)
                (game_state.highest_tile.getD 0))]

/-- Run of the `2048-score` generator. -/
def reach_score_run (target_score : ℤ) (launch : Option LaunchResponse)
    (new_game : Option Unit) (fetch : Option GameState) :
    Except Unit (List (Yield ℚ)) :=
  match launch with
  | none => Except.error ()
  | some response =>
    if response.status_code ≠ 200 then Except.ok [Yield.reward 0]
    else
      match response.body with
      | none => Except.error ()
      | some _backend_port =>
        match new_game with
        | none => Except.error ()
        | some _ =>
          match fetch with
          | none => Except.ok [Yield.prompt (reach_score_prompt target_score), Yield.reward 0]
          | some game_state =>
            Except.ok [Yield.prompt (reach_score_prompt target_score),
              Yield.reward (reach_score_reward target_score (game_state.score.getD 0))]

/-- Run of the `todo-complete` generator. -/
def complete_todos_run (expected_count : ℤ) (launch : Option LaunchResponse)
    (seed : Option Unit) (fetch : Option TodoStats) :
    Except Unit (List (Yield ℚ)) :=
  match launch with
  | none => Except.error ()
  | some response =>
    if response.status_code ≠ 200 then Except.ok [Yield.reward 0]
    else
      match response.body with
      | none => Except.error ()
      | some _backend_port =>
        match seed with
        | none => Except.error ()
        | some _ =>
          match fetch with
          | none => Except.ok [Yield.prompt (complete_todos_prompt expected_count),
              Yield.reward 0]
          | some stats =>
            Except.ok [Yield.prompt (complete_todos_prompt expected_count),
              Yield.reward (complete_todos_reward expected_count
                (stats.completed_items.getD 0))]

/-- Run of the `todo-create` generator. -/
def create_todo_run (title : String) (launch : Option LaunchResponse)
    (reset : Option Unit) (fetch : Option (List TodoItem)) :
    Except Unit (List (Yield ℚ)) :=
  match launch with
  | none => Except.error ()
  | some response =>
    if response.status_code ≠ 200 then Except.ok [Yield.reward 0]
    else
      match response.body with
      | none => Except.error ()
      | some _backend_port =>
        match reset with
        | none => Except.error ()
        | some _ =>
          match fetch with
          | none => Except.ok [Yield.prompt (create_todo_prompt title), Yield.reward 0]
          | some todos =>
            Except.ok [Yield.prompt (create_todo_prompt title),
              Yield.reward (create_todo_reward title todos)]

/-- Run of the `todo-completion-rate` generator. -/
def completion_rate_run (target_rate : ℚ) (launch : Option LaunchResponse)
    (seed : Option Unit) (fetch : Option TodoStats) :
    Except Unit (List (Yield ℚ)) :=
  match launch with
  | none => Except.error ()
  | some response =>
    if response.status_code ≠ 200 then Except.ok [Yield.reward 0]
    else
      match response.body with
      | none => Except.error ()
      | some _backend_port =>
        match seed with
        | none => Except.error ()
        | some _ =>
          match fetch with
          | none => Except.ok [Yield.prompt (completion_rate_prompt target_rate),
              Yield.reward 0]
          | some stats =>
            Except.ok [Yield.prompt (completion_rate_prompt target_rate),
              Yield.reward (completion_rate_reward target_rate
                (stats.total_items.getD 0) (stats.completed_items.getD 0))]

/-! ### Connection discovery (src/tools/browser.py, `_discover_cdp_url`) -/

/-- Outcome of one poll of `GET /cdp`: either the request (or the body parse)
raised, or a response with a status code and the optional `ws` field. -/
inductive PollResult where
  | exn
  | response (status_code : ℕ) (ws : Option String)

/-- The address a single poll would make `_discover_cdp_url` return:
`some s` exactly when the status is 200 and the `ws` field is a non-empty
string (Python truthiness of `if ws:`). -/
def poll_address : PollResult → Option String
  | PollResult.exn => none
  | PollResult.response status ws =>
    if status = 200 then
      match ws with
      | some s => if s ≠ "" then some s else none
      | none => none
    else none

/-- `_discover_cdp_url`, modelled over the finite sequence of responses the
poll loop observes before its deadline (one entry per iteration, at most
`timeout_sec / poll_interval_sec` entries): return the `ws` address of the
first 200-response whose `ws` is truthy, else `None` when the budget is
exhausted. Exceptions inside an iteration are swallowed (`except: pass`). -/
def discover_cdp_url : List PollResult → Option String
  | [] => none
  | PollResult.exn :: rest => discover_cdp_url rest
  | PollResult.response status ws :: rest =>
    if status = 200 then
      match ws with
      | some s => if s ≠ "" then some s else discover_cdp_url rest
      | none => discover_cdp_url rest
    else discover_cdp_url rest

/-- Shape of a run trace, as the amended protocol-ordering invariant states
it: either an exception escaped the generator, or the launch returned a
non-200 status and the run yielded exactly one reward `0` and no prompt, or
the run yielded exactly one prompt followed by exactly one reward. -/
def run_shape_ok {α : Type} [Zero α] (launch : Option LaunchResponse)
    (result : Except Unit (List (Yield α))) : Prop :=
  result = Except.error () ∨
  ((∃ response, launch = some response ∧ response.status_code ≠ 200) ∧
    result = Except.ok [Yield.reward 0]) ∨
  (∃ p r, result = Except.ok [Yield.prompt p, Yield.reward r])

/-- A run result whose first yielded value is a reward. -/
def yields_reward_first {α : Type} : Except Unit (List (Yield α)) → Prop
  | Except.ok (Yield.reward _ :: _) => True
  | _ => False

/-! ### Theorems about the reward functions -/

/-- C2: every reward function maps every observed state with non-negative
numeric fields (counts are naturals) to a value in the closed interval
[0, 1], for all parameter values. -/
theorem reward_functions_range :
    (∀ target highest_tile score : ℕ,
      0 ≤ reach_tile_reward target highest_tile score ∧
        reach_tile_reward target highest_tile score ≤ 1) ∧
    (∀ (target : ℕ) (won : Bool) (highest_tile : ℕ),
      0 ≤ near_win_reward target won highest_tile ∧
        near_win_reward target won highest_tile ≤ 1) ∧
    (∀ (target_score : ℤ) (score : ℕ),
      0 ≤ reach_score_reward target_score score ∧
        reach_score_reward target_score score ≤ 1) ∧
    (∀ (expected_count : ℤ) (completed : ℕ),
      0 ≤ complete_todos_reward expected_count completed ∧
        complete_todos_reward expected_count completed ≤ 1) ∧
    (∀ (title : String) (todos : List TodoItem),
      0 ≤ create_todo_reward title todos ∧ create_todo_reward title todos ≤ 1) ∧
    (∀ (target_rate : ℚ) (total completed : ℕ),
      0 ≤ completion_rate_reward target_rate total completed ∧
        completion_rate_reward target_rate total completed ≤ 1) := by
  refine ⟨?_, ?_, ?_, ?_, ?_, ?_⟩
  · intro t h s
    unfold reach_tile_reward
    split
    · norm_num
    · split
      · next hc =>
        obtain ⟨ht, hh⟩ := hc
        refine ⟨le_min (by norm_num) (div_nonneg ?_ ?_), min_le_left _ _⟩
        · exact Real.log_nonneg (by exact_mod_cast hh.le)
        · exact Real.log_nonneg (by exact_mod_cast ht.le)
      · norm_num
  · intro t w h
    unfold near_win_reward
    split <;> norm_num
  · intro ts s
    unfold reach_score_reward
    split
    · next hts =>
      refine ⟨le_min (by norm_num) (div_nonneg (by positivity) ?_), min_le_left _ _⟩
      exact_mod_cast hts.le
    · norm_num
  · intro e c
    unfold complete_todos_reward
    split
    · norm_num
    · next hge =>
      split
      · next hpos =>
        push_neg at hge
        constructor
        · apply div_nonneg (by positivity)
          exact_mod_cast hpos.le
        · rw [div_le_one (by exact_mod_cast hpos)]
          exact_mod_cast hge.le
      · norm_num
  · intro title todos
    unfold create_todo_reward
    split <;> norm_num
  · intro tr tot c
    simp only [completion_rate_reward]
    split
    · next htr =>
      refine ⟨le_min (by norm_num) (div_nonneg ?_ htr.le), min_le_left _ _⟩
      split
      · positivity
      · norm_num
    · norm_num

/-- C3: the reach-tile reward equals `min(1, log(highest)/log(target))`
whenever score is nonzero, target > 1 and highest_tile > 1; it equals 0 when
score = 0 or highest_tile ≤ 1 or target ≤ 1; target 64 with highest 64 and
score 100 gives 1, and highest 8 (any nonzero score) gives 1/2. -/
theorem reach_tile_reward_formula :
    (∀ target highest_tile score : ℕ, score ≠ 0 → 1 < target → 1 < highest_tile →
      reach_tile_reward target highest_tile score =
        min 1 (Real.log highest_tile / Real.log target)) ∧
    (∀ target highest_tile score : ℕ,
      score = 0 ∨ highest_tile ≤ 1 ∨ target ≤ 1 →
      reach_tile_reward target highest_tile score = 0) ∧
    reach_tile_reward 64 64 100 = 1 ∧
    (∀ score : ℕ, score ≠ 0 → reach_tile_reward 64 8 score = 1 / 2) := by
  have hform : ∀ target highest_tile score : ℕ,
      score ≠ 0 → 1 < target → 1 < highest_tile →
      reach_tile_reward target highest_tile score =
        min 1 (Real.log highest_tile / Real.log target) := by
    intro t h s hs ht hh
    unfold reach_tile_reward
    rw [if_neg hs, if_pos ⟨ht, hh⟩]
  refine ⟨hform, ?_, ?_, ?_⟩
  · intro t h s hcase
    unfold reach_tile_reward
    rcases hcase with hs | hh | ht
    · rw [if_pos hs]
    · by_cases hs : s = 0
      · rw [if_pos hs]
      · rw [if_neg hs, if_neg (fun hc => absurd hc.2 (not_lt.mpr hh))]
    · by_cases hs : s = 0
      · rw [if_pos hs]
      · rw [if_neg hs, if_neg (fun hc => absurd hc.1 (not_lt.mpr ht))]
  · rw [hform 64 64 100 (by norm_num) (by norm_num) (by norm_num)]
    have hlog : (0:ℝ) < Real.log ((64:ℕ):ℝ) := Real.log_pos (by norm_num)
    rw [div_self (ne_of_gt hlog), min_self]
  · intro s hs
    rw [hform 64 8 s hs (by norm_num) (by norm_num)]
    have h8 : (0:ℝ) < Real.log ((8:ℕ):ℝ) := Real.log_pos (by norm_num)
    have h64 : Real.log ((64:ℕ):ℝ) = 2 * Real.log ((8:ℕ):ℝ) := by
      have h : ((64:ℕ):ℝ) = ((8:ℕ):ℝ) ^ 2 := by norm_num
      rw [h, Real.log_pow]
      push_cast
      ring
    have hval : Real.log ((8:ℕ):ℝ) / Real.log ((64:ℕ):ℝ) = 1 / 2 := by
      rw [h64, div_eq_iff (mul_ne_zero two_ne_zero (ne_of_gt h8))]
      ring
    rw [hval, min_eq_right (by norm_num)]

/-- C3 witness: score 7 is nonzero and the reach-tile reward at target 64,
highest tile 8 is 1/2. -/
theorem reach_tile_reward_formula_witness :
    (7:ℕ) ≠ 0 ∧ reach_tile_reward 64 8 7 = 1 / 2 :=
  ⟨by norm_num, reach_tile_reward_formula.2.2.2 7 (by norm_num)⟩

/-- C6 counterexample: the observed state with highest_tile equal to the
target but score 0 (a spawnable 4-tile before any merge) yields reward 0,
not 1. -/
theorem reach_tile_target_zero_score_cx :
    reach_tile_reward 4 4 0 = 0 ∧ reach_tile_reward 4 4 0 ≠ 1 := by
  refine ⟨rfl, ?_⟩
  rw [show reach_tile_reward 4 4 0 = (0:ℝ) from rfl]
  norm_num

/-- C6 (amended): for target > 1 and nonzero score, highest_tile equal to
the target gives reward 1; highest_tile = 0 gives reward 0 for any score. -/
theorem reach_tile_target_reached :
    ∀ target score : ℕ,
      (1 < target → score ≠ 0 → reach_tile_reward target target score = 1) ∧
      reach_tile_reward target 0 score = 0 := by
  intro t s
  constructor
  · intro ht hs
    unfold reach_tile_reward
    rw [if_neg hs, if_pos ⟨ht, ht⟩]
    have hlog : (0:ℝ) < Real.log t := Real.log_pos (by exact_mod_cast ht)
    rw [div_self (ne_of_gt hlog), min_self]
  · unfold reach_tile_reward
    by_cases hs : s = 0
    · rw [if_pos hs]
    · rw [if_neg hs, if_neg (fun hc => absurd hc.2 (by norm_num))]

/-- C6 witness: target 8 with highest tile 8 and score 5 gives reward 1. -/
theorem reach_tile_target_reached_witness :
    (1:ℕ) < 8 ∧ (5:ℕ) ≠ 0 ∧ reach_tile_reward 8 8 5 = 1 :=
  ⟨by norm_num, by norm_num,
    (reach_tile_target_reached 8 5).1 (by norm_num) (by norm_num)⟩

/-- C10: for every fixed target > 1 and nonzero score, the reach-tile reward
is monotone non-decreasing in highest_tile. -/
theorem reach_tile_reward_mono :
    ∀ (target h₁ h₂ score : ℕ), 1 < target → score ≠ 0 → h₁ ≤ h₂ →
      reach_tile_reward target h₁ score ≤ reach_tile_reward target h₂ score := by
  intro t h1 h2 s ht hs hle
  have hlogt : (0:ℝ) < Real.log t := Real.log_pos (by exact_mod_cast ht)
  unfold reach_tile_reward
  rw [if_neg hs, if_neg hs]
  by_cases hh1 : 1 < h1
  · have hh2 : 1 < h2 := lt_of_lt_of_le hh1 hle
    rw [if_pos ⟨ht, hh1⟩, if_pos ⟨ht, hh2⟩]
    refine min_le_min (le_refl 1) ?_
    rw [div_le_div_iff_of_pos_right hlogt]
    have hpos : (0:ℝ) < (h1:ℝ) := by exact_mod_cast Nat.zero_lt_one.trans hh1
    exact Real.log_le_log hpos (by exact_mod_cast hle)
  · rw [if_neg (fun hc => hh1 hc.2)]
    by_cases hh2 : 1 < h2
    · rw [if_pos ⟨ht, hh2⟩]
      refine le_min (by norm_num) (div_nonneg ?_ hlogt.le)
      exact Real.log_nonneg (by exact_mod_cast hh2.le)
    · rw [if_neg (fun hc => hh2 hc.2)]

/-- C10 witness: at target 64 and score 3, the reward at highest tile 8 is at
most the reward at highest tile 16. -/
theorem reach_tile_reward_mono_witness :
    (1:ℕ) < 64 ∧ (3:ℕ) ≠ 0 ∧ (8:ℕ) ≤ 16 ∧
      reach_tile_reward 64 8 3 ≤ reach_tile_reward 64 16 3 :=
  ⟨by norm_num, by norm_num, by norm_num,
    reach_tile_reward_mono 64 8 16 3 (by norm_num) (by norm_num) (by norm_num)⟩

/-- C4 counterexample: expected ≤ 0 does not give reward 0 — with
expected = 0 and completed = 0 the full-credit branch (completed ≥ expected)
fires and the reward is 1. -/
theorem complete_todos_zero_expected_cx :
    complete_todos_reward 0 0 = 1 ∧ complete_todos_reward 0 0 ≠ 0 := by
  refine ⟨rfl, ?_⟩
  rw [show complete_todos_reward 0 0 = (1:ℚ) from rfl]
  norm_num

/-- C4 (amended): when expected ≤ 0 the reward is 1 (a natural completed
count always satisfies completed ≥ expected); when completed ≥ expected the
reward is 1; when 0 < expected and completed < expected the reward is
completed/expected; completed 3 of expected 5 gives 3/5 = 0.6. -/
theorem complete_todos_reward_spec :
    (∀ (expected_count : ℤ) (completed : ℕ),
      (expected_count ≤ 0 → complete_todos_reward expected_count completed = 1) ∧
      (expected_count ≤ (completed : ℤ) →
        complete_todos_reward expected_count completed = 1) ∧
      (0 < expected_count → (completed : ℤ) < expected_count →
        complete_todos_reward expected_count completed =
          (completed : ℚ) / (expected_count : ℚ))) ∧
    complete_todos_reward 5 3 = 3 / 5 := by
  constructor
  · intro e c
    refine ⟨?_, ?_, ?_⟩
    · intro he
      unfold complete_todos_reward
      rw [if_pos (he.trans (Int.natCast_nonneg c))]
    · intro he
      unfold complete_todos_reward
      rw [if_pos he]
    · intro hpos hlt
      unfold complete_todos_reward
      rw [if_neg (not_le.mpr hlt), if_pos hpos]
  · norm_num [complete_todos_reward]

/-- C4 witness: expected 5 is positive, completed 3 is below it, and the
reward is 3/5. -/
theorem complete_todos_reward_spec_witness :
    (0:ℤ) < 5 ∧ ((3:ℕ):ℤ) < 5 ∧
      complete_todos_reward 5 3 = ((3:ℕ):ℚ) / ((5:ℤ):ℚ) :=
  ⟨by norm_num, by norm_num,
    (complete_todos_reward_spec.1 5 3).2.2 (by norm_num) (by norm_num)⟩

/-- C5 counterexample: with total = 0 and target_rate = 0 the reward is 1,
not 0 — the target_rate ≤ 0 branch returns 1 regardless of total. -/
theorem completion_rate_zero_total_cx :
    completion_rate_reward 0 0 0 = 1 ∧ completion_rate_reward 0 0 0 ≠ 0 := by
  refine ⟨rfl, ?_⟩
  rw [show completion_rate_reward 0 0 0 = (1:ℚ) from rfl]
  norm_num

/-- C5 (amended): with a positive target rate, an observed total of 0 gives
reward 0; with target_rate ≤ 0 the reward is 1 regardless of the counts
(including total = 0). -/
theorem completion_rate_reward_spec :
    ∀ (target_rate : ℚ) (total completed : ℕ),
      (0 < target_rate → total = 0 →
        completion_rate_reward target_rate total completed = 0) ∧
      (target_rate ≤ 0 → completion_rate_reward target_rate total completed = 1) := by
  intro tr tot c
  constructor
  · intro htr htot
    subst htot
    simp [completion_rate_reward, htr]
  · intro htr
    simp [completion_rate_reward, not_lt.mpr htr]

/-- C5 witness: target rate 1/2 is positive and an observed total of 0 gives
reward 0. -/
theorem completion_rate_reward_spec_witness :
    (0:ℚ) < 1 / 2 ∧ (0:ℕ) = 0 ∧ completion_rate_reward (1 / 2) 0 3 = 0 :=
  ⟨by norm_num, rfl, (completion_rate_reward_spec (1 / 2) 0 3).1 (by norm_num) rfl⟩

/-! ### Theorems about the scenario run traces -/

/-- C1 counterexample: a reach-tile run whose launch returns HTTP 404 yields
the numeric reward 0.0 as its first (and only) value, with no prompt ever
produced. -/
theorem reach_tile_reward_first_cx :
    reach_tile_run 512 4 (some ⟨404, some (some 5001)⟩) (some ()) none =
      Except.ok [Yield.reward 0] ∧
    yields_reward_first
      (reach_tile_run 512 4 (some ⟨404, some (some 5001)⟩) (some ()) none) :=
  ⟨rfl, trivial⟩

/-- C1 (amended): every scenario run either lets an exception escape during
setup (yielding nothing), or — when the launch returned a non-200 status —
yields exactly one reward 0 and no prompt, or yields exactly one prompt
followed by exactly one reward; no run yields two prompts, two rewards, or a
reward before its prompt once a prompt exists. -/
theorem scenario_run_trace_shape :
    (∀ (target board_size : ℕ) (launch : Option LaunchResponse)
        (new_game : Option Unit) (fetch : Option GameState),
      run_shape_ok launch (reach_tile_run target board_size launch new_game fetch)) ∧
    (∀ (target : ℕ) (launch : Option LaunchResponse)
        (set_board : Option Unit) (fetch : Option GameState),
      run_shape_ok launch (near_win_run target launch set_board fetch)) ∧
    (∀ (target_score : ℤ) (launch : Option LaunchResponse)
        (new_game : Option Unit) (fetch : Option GameState),
      run_shape_ok launch (reach_score_run target_score launch new_game fetch)) ∧
    (∀ (expected_count : ℤ) (launch : Option LaunchResponse)
        (seed : Option Unit) (fetch : Option TodoStats),
      run_shape_ok launch (complete_todos_run expected_count launch seed fetch)) ∧
    (∀ (title : String) (launch : Option LaunchResponse)
        (reset : Option Unit) (fetch : Option (List TodoItem)),
      run_shape_ok launch (create_todo_run title launch reset fetch)) ∧
    (∀ (target_rate : ℚ) (launch : Option LaunchResponse)
        (seed : Option Unit) (fetch : Option TodoStats),
      run_shape_ok launch (completion_rate_run target_rate launch seed fetch)) := by
  refine ⟨?_, ?_, ?_, ?_, ?_, ?_⟩
  · intro target board_size launch new_game fetch
    rcases launch with _ | ⟨sc, body⟩
    · exact Or.inl rfl
    · by_cases hstatus : sc = 200
      · subst hstatus
        rcases body with _ | bp
        · exact Or.inl rfl
        · rcases new_game with _ | _
          · exact Or.inl rfl
          · rcases fetch with _ | st
            · exact Or.inr (Or.inr ⟨reach_tile_prompt target, 0, rfl⟩)
            · exact Or.inr (Or.inr ⟨reach_tile_prompt target,
                reach_tile_reward target (st.highest_tile.getD 0) (st.score.getD 0), rfl⟩)
      · refine Or.inr (Or.inl ⟨⟨⟨sc, body⟩, rfl, hstatus⟩, ?_⟩)
        simp only [reach_tile_run]
        rw [if_pos hstatus]
  · intro target launch set_board fetch
    rcases launch with _ | ⟨sc, body⟩
    · exact Or.inl rfl
    · by_cases hstatus : sc = 200
      · subst hstatus
        rcases body with _ | bp
        · exact Or.inl rfl
        · rcases set_board with _ | _
          · exact Or.inl rfl
          · rcases fetch with _ | st
            · exact Or.inr (Or.inr ⟨near_win_prompt target, 0, rfl⟩)
            · exact Or.inr (Or.inr ⟨near_win_prompt target,
                near_win_reward target (st.won.getD false) (st.highest_tile.getD 0), rfl⟩)
      · refine Or.inr (Or.inl ⟨⟨⟨sc, body⟩, rfl, hstatus⟩, ?_⟩)
        simp only [near_win_run]
        rw [if_pos hstatus]
  · intro target_score launch new_game fetch
    rcases launch with _ | ⟨sc, body⟩
    · exact Or.inl rfl
    · by_cases hstatus : sc = 200
      · subst hstatus
        rcases body with _ | bp
        · exact Or.inl rfl
        · rcases new_game with _ | _
          · exact Or.inl rfl
          · rcases fetch with _ | st
            · exact Or.inr (Or.inr ⟨reach_score_prompt target_score, 0, rfl⟩)
            · exact Or.inr (Or.inr ⟨reach_score_prompt target_score,
                reach_score_reward target_score (st.score.getD 0), rfl⟩)
      · refine Or.inr (Or.inl ⟨⟨⟨sc, body⟩, rfl, hstatus⟩, ?_⟩)
        simp only [reach_score_run]
        rw [if_pos hstatus]
  · intro expected_count launch seed fetch
    rcases launch with _ | ⟨sc, body⟩
    · exact Or.inl rfl
    · by_cases hstatus : sc = 200
      · subst hstatus
        rcases body with _ | bp
        · exact Or.inl rfl
        · rcases seed with _ | _
          · exact Or.inl rfl
          · rcases fetch with _ | st
            · exact Or.inr (Or.inr ⟨complete_todos_prompt expected_count, 0, rfl⟩)
            · exact Or.inr (Or.inr ⟨complete_todos_prompt expected_count,
                complete_todos_reward expected_count (st.completed_items.getD 0), rfl⟩)
      · refine Or.inr (Or.inl ⟨⟨⟨sc, body⟩, rfl, hstatus⟩, ?_⟩)
        simp only [complete_todos_run]
        rw [if_pos hstatus]
  · intro title launch reset fetch
    rcases launch with _ | ⟨sc, body⟩
    · exact Or.inl rfl
    · by_cases hstatus : sc = 200
      · subst hstatus
        rcases body with _ | bp
        · exact Or.inl rfl
        · rcases reset with _ | _
          · exact Or.inl rfl
          · rcases fetch with _ | todos
            · exact Or.inr (Or.inr ⟨create_todo_prompt title, 0, rfl⟩)
            · exact Or.inr (Or.inr ⟨create_todo_prompt title,
                create_todo_reward title todos, rfl⟩)
      · refine Or.inr (Or.inl ⟨⟨⟨sc, body⟩, rfl, hstatus⟩, ?_⟩)
        simp only [create_todo_run]
        rw [if_pos hstatus]
  · intro target_rate launch seed fetch
    rcases launch with _ | ⟨sc, body⟩
    · exact Or.inl rfl
    · by_cases hstatus : sc = 200
      · subst hstatus
        rcases body with _ | bp
        · exact Or.inl rfl
        · rcases seed with _ | _
          · exact Or.inl rfl
          · rcases fetch with _ | st
            · exact Or.inr (Or.inr ⟨completion_rate_prompt target_rate, 0, rfl⟩)
            · exact Or.inr (Or.inr ⟨completion_rate_prompt target_rate,
                completion_rate_reward target_rate (st.total_items.getD 0)
                  (st.completed_items.getD 0), rfl⟩)
      · refine Or.inr (Or.inl ⟨⟨⟨sc, body⟩, rfl, hstatus⟩, ?_⟩)
        simp only [completion_rate_run]
        rw [if_pos hstatus]

/-- C7 counterexample: when the launch POST itself raises (connection failure
or timeout — `none`, as opposed to returning a status code), the exception
escapes the reach-tile generator instead of resolving to reward 0.0. -/
theorem launch_exception_propagates_cx :
    reach_tile_run 512 4 none (some ())
        (some ⟨some 64, some 100, some false⟩) = Except.error () := rfl

/-- C7 (amended): when the launch request returns any non-200 status the
scenario terminates with reward 0.0, without a prompt and without raising;
but when the launch request itself raises (timeout or connection failure)
the exception propagates out of every scenario generator. -/
theorem launch_failure_spec :
    (∀ (target board_size : ℕ) (response : LaunchResponse)
        (new_game : Option Unit) (fetch : Option GameState),
      (response.status_code ≠ 200 →
        reach_tile_run target board_size (some response) new_game fetch =
          Except.ok [Yield.reward 0]) ∧
      reach_tile_run target board_size none new_game fetch = Except.error ()) ∧
    (∀ (target : ℕ) (response : LaunchResponse)
        (set_board : Option Unit) (fetch : Option GameState),
      (response.status_code ≠ 200 →
        near_win_run target (some response) set_board fetch =
          Except.ok [Yield.reward 0]) ∧
      near_win_run target none set_board fetch = Except.error ()) ∧
    (∀ (target_score : ℤ) (response : LaunchResponse)
        (new_game : Option Unit) (fetch : Option GameState),
      (response.status_code ≠ 200 →
        reach_score_run target_score (some response) new_game fetch =
          Except.ok [Yield.reward 0]) ∧
      reach_score_run target_score none new_game fetch = Except.error ()) ∧
    (∀ (expected_count : ℤ) (response : LaunchResponse)
        (seed : Option Unit) (fetch : Option TodoStats),
      (response.status_code ≠ 200 →
        complete_todos_run expected_count (some response) seed fetch =
          Except.ok [Yield.reward 0]) ∧
      complete_todos_run expected_count none seed fetch = Except.error ()) ∧
    (∀ (title : String) (response : LaunchResponse)
        (reset : Option Unit) (fetch : Option (List TodoItem)),
      (response.status_code ≠ 200 →
        create_todo_run title (some response) reset fetch =
          Except.ok [Yield.reward 0]) ∧
      create_todo_run title none reset fetch = Except.error ()) ∧
    (∀ (target_rate : ℚ) (response : LaunchResponse)
        (seed : Option Unit) (fetch : Option TodoStats),
      (response.status_code ≠ 200 →
        completion_rate_run target_rate (some response) seed fetch =
          Except.ok [Yield.reward 0]) ∧
      completion_rate_run target_rate none seed fetch = Except.error ()) := by
  refine ⟨?_, ?_, ?_, ?_, ?_, ?_⟩
  · intro target board_size response new_game fetch
    refine ⟨fun h => ?_, rfl⟩
    simp only [reach_tile_run]
    rw [if_pos h]
  · intro target response set_board fetch
    refine ⟨fun h => ?_, rfl⟩
    simp only [near_win_run]
    rw [if_pos h]
  · intro target_score response new_game fetch
    refine ⟨fun h => ?_, rfl⟩
    simp only [reach_score_run]
    rw [if_pos h]
  · intro expected_count response seed fetch
    refine ⟨fun h => ?_, rfl⟩
    simp only [complete_todos_run]
    rw [if_pos h]
  · intro title response seed fetch
    refine ⟨fun h => ?_, rfl⟩
    simp only [create_todo_run]
    rw [if_pos h]
  · intro target_rate response seed fetch
    refine ⟨fun h => ?_, rfl⟩
    simp only [completion_rate_run]
    rw [if_pos h]

/-- C7 witness: a launch answered with HTTP 404 makes the reach-tile run
yield reward 0.0 as its only value. -/
theorem launch_failure_spec_witness :
    (404:ℕ) ≠ 200 ∧
      reach_tile_run 512 4 (some ⟨404, some (some 5001)⟩) (some ()) none =
        Except.ok [Yield.reward 0] :=
  ⟨by norm_num,
    (launch_failure_spec.1 512 4 ⟨404, some (some 5001)⟩ (some ()) none).1
      (by norm_num)⟩

/-- C8: if the guarded evaluation fetch raises in any way (`none`), every
scenario terminates with the prompt followed by reward 0 and no exception
reaches the caller; and a well-formed state body with all keys missing is
read through the 0/false defaults rather than failing. -/
theorem eval_failure_swallowed :
    (∀ (target board_size : ℕ) (bp : Option ℕ),
      reach_tile_run target board_size (some ⟨200, some bp⟩) (some ()) none =
        Except.ok [Yield.prompt (reach_tile_prompt target), Yield.reward 0] ∧
      reach_tile_run target board_size (some ⟨200, some bp⟩) (some ())
          (some ⟨none, none, none⟩) =
        Except.ok [Yield.prompt (reach_tile_prompt target),
          Yield.reward (reach_tile_reward target 0 0)]) ∧
    (∀ (target : ℕ) (bp : Option ℕ),
      near_win_run target (some ⟨200, some bp⟩) (some ()) none =
        Except.ok [Yield.prompt (near_win_prompt target), Yield.reward 0] ∧
      near_win_run target (some ⟨200, some bp⟩) (some ()) (some ⟨none, none, none⟩) =
        Except.ok [Yield.prompt (near_win_prompt target),
          Yield.reward (near_win_reward target false 0)]) ∧
    (∀ (target_score : ℤ) (bp : Option ℕ),
      reach_score_run target_score (some ⟨200, some bp⟩) (some ()) none =
        Except.ok [Yield.prompt (reach_score_prompt target_score), Yield.reward 0] ∧
      reach_score_run target_score (some ⟨200, some bp⟩) (some ())
          (some ⟨none, none, none⟩) =
        Except.ok [Yield.prompt (reach_score_prompt target_score),
          Yield.reward (reach_score_reward target_score 0)]) ∧
    (∀ (expected_count : ℤ) (bp : Option ℕ),
      complete_todos_run expected_count (some ⟨200, some bp⟩) (some ()) none =
        Except.ok [Yield.prompt (complete_todos_prompt expected_count),
          Yield.reward 0] ∧
      complete_todos_run expected_count (some ⟨200, some bp⟩) (some ())
          (some ⟨none, none⟩) =
        Except.ok [Yield.prompt (complete_todos_prompt expected_count),
          Yield.reward (complete_todos_reward expected_count 0)]) ∧
    (∀ (title : String) (bp : Option ℕ),
      create_todo_run title (some ⟨200, some bp⟩) (some ()) none =
        Except.ok [Yield.prompt (create_todo_prompt title), Yield.reward 0] ∧
      create_todo_run title (some ⟨200, some bp⟩) (some ()) (some [⟨none⟩]) =
        Except.ok [Yield.prompt (create_todo_prompt title),
          Yield.reward (create_todo_reward title [⟨none⟩])]) ∧
    (∀ (target_rate : ℚ) (bp : Option ℕ),
      completion_rate_run target_rate (some ⟨200, some bp⟩) (some ()) none =
        Except.ok [Yield.prompt (completion_rate_prompt target_rate),
          Yield.reward 0] ∧
      completion_rate_run target_rate (some ⟨200, some bp⟩) (some ())
          (some ⟨none, none⟩) =
        Except.ok [Yield.prompt (completion_rate_prompt target_rate),
          Yield.reward (completion_rate_reward target_rate 0 0)]) :=
  ⟨fun _ _ _ => ⟨rfl, rfl⟩, fun _ _ => ⟨rfl, rfl⟩, fun _ _ => ⟨rfl, rfl⟩,
    fun _ _ => ⟨rfl, rfl⟩, fun _ _ => ⟨rfl, rfl⟩, fun _ _ => ⟨rfl, rfl⟩⟩

/-! ### Theorems about connection discovery -/

/-- A poll whose response raised, had a non-200 status, or carried no truthy
`ws` address leaves the discovery loop polling the rest of the sequence. -/
theorem discover_cons_of_none (p : PollResult) (rest : List PollResult)
    (h : poll_address p = none) :
    discover_cdp_url (p :: rest) = discover_cdp_url rest := by
  cases p with
  | exn => rfl
  | response status ws =>
    by_cases hst : status = 200
    · cases ws with
      | none => simp [discover_cdp_url, hst]
      | some s =>
        by_cases hse : s = ""
        · simp [discover_cdp_url, hst, hse]
        · exfalso
          simp [poll_address, hst, hse] at h
    · simp [discover_cdp_url, hst]

/-- A poll that returns status 200 with a non-empty `ws` address makes the
discovery loop return that address at once. -/
theorem discover_cons_of_some (p : PollResult) (rest : List PollResult)
    (addr : String) (h : poll_address p = some addr) :
    discover_cdp_url (p :: rest) = some addr := by
  cases p with
  | exn => simp [poll_address] at h
  | response status ws =>
    by_cases hst : status = 200
    · cases ws with
      | none => simp [poll_address, hst] at h
      | some s =>
        by_cases hse : s = ""
        · simp [poll_address, hst, hse] at h
        · simp only [poll_address, if_pos hst, if_pos hse, Option.some.injEq] at h
          subst h
          simp [discover_cdp_url, hst, hse]
    · simp [poll_address, hst] at h

/-- When no poll in the budget yields a truthy address, discovery returns
`none`. -/
theorem discover_all_none (polls : List PollResult)
    (h : ∀ p ∈ polls, poll_address p = none) : discover_cdp_url polls = none := by
  induction polls with
  | nil => rfl
  | cons q rest ih =>
    rw [discover_cons_of_none q rest (h q (List.mem_cons_self q rest))]
    exact ih (fun x hx => h x (List.mem_cons_of_mem q hx))

/-- Discovery returns the address of the first successful poll. -/
theorem discover_append_first (earlier : List PollResult) :
    ∀ (p : PollResult) (later : List PollResult) (addr : String),
      (∀ q ∈ earlier, poll_address q = none) →
      poll_address p = some addr →
      discover_cdp_url (earlier ++ p :: later) = some addr := by
  induction earlier with
  | nil =>
    intro p later addr _ hp
    rw [List.nil_append]
    exact discover_cons_of_some p later addr hp
  | cons q qs ih =>
    intro p later addr hpre hp
    rw [List.cons_append,
      discover_cons_of_none q _ (hpre q (List.mem_cons_self q qs))]
    exact ih p later addr (fun x hx => hpre x (List.mem_cons_of_mem q hx)) hp

/-- C9: over the sequence of responses seen by successive polls (at most
timeout/interval of them), discovery returns the address of the first poll
that answers status 200 with a non-empty address, and returns `none` when no
poll within the budget does. -/
theorem discover_cdp_url_spec :
    ∀ polls : List PollResult,
      ((∀ p ∈ polls, poll_address p = none) → discover_cdp_url polls = none) ∧
      (∀ (earlier : List PollResult) (p : PollResult) (later : List PollResult)
          (addr : String),
        polls = earlier ++ p :: later →
        (∀ q ∈ earlier, poll_address q = none) →
        poll_address p = some addr →
        discover_cdp_url polls = some addr) := by
  intro polls
  refine ⟨discover_all_none polls, ?_⟩
  intro earlier p later addr heq hpre hp
  subst heq
  exact discover_append_first earlier p later addr hpre hp

/-- C9 witness: after an exception, a 500, a missing `ws` and an empty `ws`,
the first 200-response with a non-empty address is returned. -/
theorem discover_cdp_url_spec_witness :
    discover_cdp_url
        [PollResult.exn, PollResult.response 500 (some "x"),
          PollResult.response 200 none, PollResult.response 200 (some ""),
          PollResult.response 200 (some "ws://localhost:9222/devtools")] =
      some "ws://localhost:9222/devtools" :=
  (discover_cdp_url_spec _).2
    [PollResult.exn, PollResult.response 500 (some "x"),
      PollResult.response 200 none, PollResult.response 200 (some "")]
    (PollResult.response 200 (some "ws://localhost:9222/devtools")) []
    "ws://localhost:9222/devtools" rfl (by decide) (by decide)

end HudBrowser
